import Mathlib

/-!
Verification of the WAVM memory-op lowerer (Lib/LLVMJIT/EmitMem.cpp), the
test-script parser (Lib/WASTParse/ParseTests.cpp) and the compartment
clone/remap operations (Runtime) against the repository specification.

The LLVM IR emitted by the lowerer is modelled symbolically: `LLVMExpr`
represents the value expressions the IR builder constructs (popped operands,
literals, zero/sign extensions, adds, GEPs, ...), and `IREvent` records the
memory-relevant instructions that a lowering emits, in emission order, with
their alignment / volatility / atomic-ordering attributes.  Value conversions
applied to a loaded value (sext/zext/trunc/splat of the *data*, not of the
address) do not participate in address formation and are not recorded.
-/

namespace WAVMProof

/-- Symbolic model of the LLVM value expressions built by EmitMem.cpp.
`operand i` is the i-th value popped from the Wasm operand stack (in pop
order); `lit32`/`lit64` are `emitLiteral` constants; `loadBasePtr i` is the
load of `memoryBasePointerVariables[i]`; `memoryIdOf i` models
`getMemoryIdFromOffset(llvmContext, moduleContext.memoryOffsets[i])`. -/
inductive LLVMExpr where
  | operand : Nat → LLVMExpr
  | lit32 : Nat → LLVMExpr
  | lit64 : Nat → LLVMExpr
  | zext64 : LLVMExpr → LLVMExpr
  | sext64 : LLVMExpr → LLVMExpr
  | add : LLVMExpr → LLVMExpr → LLVMExpr
  | band : LLVMExpr → LLVMExpr → LLVMExpr
  | icmpNE : LLVMExpr → LLVMExpr → LLVMExpr
  | icmpULT : LLVMExpr → LLVMExpr → LLVMExpr
  | trunc8 : LLVMExpr → LLVMExpr
  | zextIptr : LLVMExpr → LLVMExpr
  | loadBasePtr : Nat → LLVMExpr
  | gep : LLVMExpr → LLVMExpr → LLVMExpr
  | ptrCast : LLVMExpr → LLVMExpr
  | loopIndex : LLVMExpr
  | memoryIdOf : Nat → LLVMExpr
  deriving DecidableEq, Repr

/-- `static llvm::Value* getOffsetAndBoundedAddress(...)` (EmitMem.cpp):
zext the 32-bit address to 64 bits, then, if the static offset immediate is
non-zero, add its zext. -/
def getOffsetAndBoundedAddress (address : LLVMExpr) (offset : Nat) : LLVMExpr :=
  let address := LLVMExpr.zext64 address
  if offset ≠ 0 then
    LLVMExpr.add address (LLVMExpr.zext64 (LLVMExpr.lit32 offset))
  else
    address

/-- `EmitFunctionContext::coerceAddressToPointer`: load the memory base
pointer, form the byte pointer with an in-bounds GEP, cast to the target
element pointer type. -/
def coerceAddressToPointer (boundedAddress : LLVMExpr) (memoryIndex : Nat) : LLVMExpr :=
  LLVMExpr.ptrCast (LLVMExpr.gep (LLVMExpr.loadBasePtr memoryIndex) boundedAddress)

inductive AtomicOrdering where
  | seqCst
  deriving DecidableEq, Repr

inductive RMWOp where
  | Xchg | Add | Sub | And | Or | Xor
  deriving DecidableEq, Repr

inductive TargetArch where
  | x86 | x86_64 | aarch64 | other
  deriving DecidableEq, Repr

/-- The memory-relevant instructions a lowering emits, in emission order.
`explicitAlignment = none` on an atomic RMW / cmpxchg records that the code
never calls `setAlignment` on those instructions (LLVM then derives the
alignment from the pointee type). -/
inductive IREvent where
  | load (pointer : LLVMExpr) (alignment : Nat) (isVolatile : Bool)
      (atomicOrdering : Option AtomicOrdering)
  | store (pointer : LLVMExpr) (alignment : Nat) (isVolatile : Bool)
      (atomicOrdering : Option AtomicOrdering)
  | atomicCmpXchg (pointer : LLVMExpr) (successOrdering failureOrdering : AtomicOrdering)
      (isVolatile : Bool) (explicitAlignment : Option Nat)
  | atomicRMW (op : RMWOp) (pointer : LLVMExpr) (ordering : AtomicOrdering)
      (isVolatile : Bool) (explicitAlignment : Option Nat)
  | condTrapIntrinsic (condition : LLVMExpr) (intrinsicName : String)
      (args : List LLVMExpr)
  | runtimeIntrinsic (intrinsicName : String) (args : List LLVMExpr)
  | llvmIntrinsic (intrinsicName : String) (args : List LLVMExpr)
  | fence (ordering : AtomicOrdering)
  deriving DecidableEq, Repr

/-- The fields of `LoadOrStoreImm` / `AtomicLoadOrStoreImm` used by the
lowerings. -/
structure LoadOrStoreImm where
  alignmentLog2 : Nat
  offset : Nat
  memoryIndex : Nat
  deriving DecidableEq, Repr

/-- `EmitFunctionContext::trapIfMisalignedAtomic`: if `alignmentLog2 > 0`,
emit a conditional `misalignedAtomicTrap` intrinsic call guarded by
`(address & ((1 << alignmentLog2) - 1)) != 0`. -/
def trapIfMisalignedAtomic (address : LLVMExpr) (alignmentLog2 : Nat) : List IREvent :=
  if alignmentLog2 > 0 then
    [IREvent.condTrapIntrinsic
      (LLVMExpr.icmpNE (LLVMExpr.lit64 0)
        (LLVMExpr.band address (LLVMExpr.lit64 ((1 <<< alignmentLog2) - 1))))
      "misalignedAtomicTrap"
      [address]]
  else []

/-- The memory operator families lowered by EmitMem.cpp whose emitted IR is a
flat instruction list.  Atomic families carry the `naturalAlignmentLog2`
macro argument of their instantiation; `memory.copy` and `memory.fill` have
branching lowerings and are modelled separately below. -/
inductive MemOpKind where
  | plainLoad
  | plainStore
  | loadInterleaved (numVectors numLanes : Nat)
  | storeInterleaved (numVectors numLanes : Nat)
  | atomicLoad (naturalAlignmentLog2 : Nat)
  | atomicStore (naturalAlignmentLog2 : Nat)
  | atomicCmpxchg (naturalAlignmentLog2 : Nat)
  | atomicRMW (rmwOp : RMWOp) (naturalAlignmentLog2 : Nat)
  | atomicNotify
  | atomicWaitI32
  | atomicWaitI64
  deriving DecidableEq, Repr

/-- `EMIT_LOAD_OP`: bounded address, pointer, then a load with alignment 1
and `volatile = true` (the Wasm alignment hint is not trusted). -/
def emitLoadOp (imm : LoadOrStoreImm) : List IREvent :=
  let address := LLVMExpr.operand 0
  let boundedAddress := getOffsetAndBoundedAddress address imm.offset
  let pointer := coerceAddressToPointer boundedAddress imm.memoryIndex
  [IREvent.load pointer 1 true none]

/-- `EMIT_STORE_OP`: pops value then address; store with alignment 1 and
`volatile = true`. -/
def emitStoreOp (imm : LoadOrStoreImm) : List IREvent :=
  let address := LLVMExpr.operand 1
  let boundedAddress := getOffsetAndBoundedAddress address imm.offset
  let pointer := coerceAddressToPointer boundedAddress imm.memoryIndex
  [IREvent.store pointer 1 true none]

/-- `emitLoadInterleaved`: on aarch64 the NEON `ldK` intrinsic on the coerced
pointer; elsewhere `numVectors` consecutive volatile alignment-1 loads at
constant vector offsets from the coerced pointer (the lane deinterleave acts
on the loaded values only). -/
def emitLoadInterleaved (arch : TargetArch) (imm : LoadOrStoreImm)
    (numVectors : Nat) : List IREvent :=
  let address := LLVMExpr.operand 0
  let boundedAddress := getOffsetAndBoundedAddress address imm.offset
  let pointer := coerceAddressToPointer boundedAddress imm.memoryIndex
  if arch = TargetArch.aarch64 then
    [IREvent.llvmIntrinsic "aarch64_neon_ld" [pointer]]
  else
    (List.range numVectors).map fun vectorIndex =>
      IREvent.load (LLVMExpr.gep pointer (LLVMExpr.lit32 vectorIndex)) 1 true none

/-- `emitStoreInterleaved`: pops `numVectors` values then the address; on
aarch64 the NEON `stK` intrinsic, elsewhere `numVectors` consecutive volatile
alignment-1 stores at constant vector offsets from the coerced pointer. -/
def emitStoreInterleaved (arch : TargetArch) (imm : LoadOrStoreImm)
    (numVectors : Nat) : List IREvent :=
  let address := LLVMExpr.operand numVectors
  let boundedAddress := getOffsetAndBoundedAddress address imm.offset
  let pointer := coerceAddressToPointer boundedAddress imm.memoryIndex
  if arch = TargetArch.aarch64 then
    [IREvent.llvmIntrinsic "aarch64_neon_st" [pointer]]
  else
    (List.range numVectors).map fun vectorIndex =>
      IREvent.store (LLVMExpr.gep pointer (LLVMExpr.lit32 vectorIndex)) 1 true none

/-- `EMIT_ATOMIC_LOAD_OP`: note the misalignment check receives the
`naturalAlignmentLog2` macro constant while the load's alignment is
`1 << imm.alignmentLog2`. -/
def emitAtomicLoadOp (naturalAlignmentLog2 : Nat) (imm : LoadOrStoreImm) : List IREvent :=
  let address := LLVMExpr.operand 0
  let boundedAddress := getOffsetAndBoundedAddress address imm.offset
  trapIfMisalignedAtomic boundedAddress naturalAlignmentLog2 ++
    [IREvent.load (coerceAddressToPointer boundedAddress imm.memoryIndex)
      (1 <<< imm.alignmentLog2) true (some AtomicOrdering.seqCst)]

/-- `EMIT_ATOMIC_STORE_OP`. -/
def emitAtomicStoreOp (naturalAlignmentLog2 : Nat) (imm : LoadOrStoreImm) : List IREvent :=
  let address := LLVMExpr.operand 1
  let boundedAddress := getOffsetAndBoundedAddress address imm.offset
  trapIfMisalignedAtomic boundedAddress naturalAlignmentLog2 ++
    [IREvent.store (coerceAddressToPointer boundedAddress imm.memoryIndex)
      (1 <<< imm.alignmentLog2) true (some AtomicOrdering.seqCst)]

/-- `EMIT_ATOMIC_CMPXCHG`: pops replacement, expected, then address; both
orderings are SequentiallyConsistent, `volatile = true`, and no explicit
alignment is set on the instruction. -/
def emitAtomicCmpxchgOp (naturalAlignmentLog2 : Nat) (imm : LoadOrStoreImm) : List IREvent :=
  let address := LLVMExpr.operand 2
  let boundedAddress := getOffsetAndBoundedAddress address imm.offset
  trapIfMisalignedAtomic boundedAddress naturalAlignmentLog2 ++
    [IREvent.atomicCmpXchg (coerceAddressToPointer boundedAddress imm.memoryIndex)
      AtomicOrdering.seqCst AtomicOrdering.seqCst true none]

/-- `EMIT_ATOMIC_RMW`: pops value then address; SequentiallyConsistent,
`volatile = true`, no explicit alignment set. -/
def emitAtomicRMWOp (rmwOp : RMWOp) (naturalAlignmentLog2 : Nat)
    (imm : LoadOrStoreImm) : List IREvent :=
  let address := LLVMExpr.operand 1
  let boundedAddress := getOffsetAndBoundedAddress address imm.offset
  trapIfMisalignedAtomic boundedAddress naturalAlignmentLog2 ++
    [IREvent.atomicRMW rmwOp (coerceAddressToPointer boundedAddress imm.memoryIndex)
      AtomicOrdering.seqCst true none]

/-- `EmitFunctionContext::atomic_notify`: pops numWaiters then address; the
misalignment check receives `imm.alignmentLog2`, and the raw 32-bit address
(not a pointer) is handed to the `atomic_notify` intrinsic. -/
def atomic_notify (imm : LoadOrStoreImm) : List IREvent :=
  let numWaiters := LLVMExpr.operand 0
  let address := LLVMExpr.operand 1
  let boundedAddress := getOffsetAndBoundedAddress address imm.offset
  trapIfMisalignedAtomic boundedAddress imm.alignmentLog2 ++
    [IREvent.runtimeIntrinsic "atomic_notify"
      [address, numWaiters, LLVMExpr.memoryIdOf imm.memoryIndex]]

/-- `EmitFunctionContext::i32_atomic_wait`: pops timeout, expectedValue,
address. -/
def i32_atomic_wait (imm : LoadOrStoreImm) : List IREvent :=
  let timeout := LLVMExpr.operand 0
  let expectedValue := LLVMExpr.operand 1
  let address := LLVMExpr.operand 2
  let boundedAddress := getOffsetAndBoundedAddress address imm.offset
  trapIfMisalignedAtomic boundedAddress imm.alignmentLog2 ++
    [IREvent.runtimeIntrinsic "atomic_wait_i32"
      [address, expectedValue, timeout, LLVMExpr.memoryIdOf imm.memoryIndex]]

/-- `EmitFunctionContext::i64_atomic_wait`. -/
def i64_atomic_wait (imm : LoadOrStoreImm) : List IREvent :=
  let timeout := LLVMExpr.operand 0
  let expectedValue := LLVMExpr.operand 1
  let address := LLVMExpr.operand 2
  let boundedAddress := getOffsetAndBoundedAddress address imm.offset
  trapIfMisalignedAtomic boundedAddress imm.alignmentLog2 ++
    [IREvent.runtimeIntrinsic "atomic_wait_i64"
      [address, expectedValue, timeout, LLVMExpr.memoryIdOf imm.memoryIndex]]

/-- Dispatch from a memory operator family to its lowering. -/
def lowerMemOp (op : MemOpKind) (imm : LoadOrStoreImm) (arch : TargetArch) : List IREvent :=
  match op with
  | MemOpKind.plainLoad => emitLoadOp imm
  | MemOpKind.plainStore => emitStoreOp imm
  | MemOpKind.loadInterleaved numVectors _ => emitLoadInterleaved arch imm numVectors
  | MemOpKind.storeInterleaved numVectors _ => emitStoreInterleaved arch imm numVectors
  | MemOpKind.atomicLoad nat => emitAtomicLoadOp nat imm
  | MemOpKind.atomicStore nat => emitAtomicStoreOp nat imm
  | MemOpKind.atomicCmpxchg nat => emitAtomicCmpxchgOp nat imm
  | MemOpKind.atomicRMW rmwOp nat => emitAtomicRMWOp rmwOp nat imm
  | MemOpKind.atomicNotify => atomic_notify imm
  | MemOpKind.atomicWaitI32 => i32_atomic_wait imm
  | MemOpKind.atomicWaitI64 => i64_atomic_wait imm

/-- The complete list of `MemOpKind` instantiations appearing in EmitMem.cpp
(one entry per `EMIT_*` macro instantiation line or named atomic wait/notify
function; all plain load/store instantiations share one lowering shape). -/
def allMemOps : List MemOpKind :=
  [ -- EMIT_LOAD_OP instantiations (i32/i64 sized loads, full-width loads,
   -- v128 load, lane splats, widened vector loads):
   MemOpKind.plainLoad,
   -- EMIT_STORE_OP instantiations:
   MemOpKind.plainStore,
   -- EMIT_LOAD_INTERLEAVED_OP / EMIT_STORE_INTERLEAVED_OP:
   MemOpKind.loadInterleaved 2 16, MemOpKind.loadInterleaved 3 16,
   MemOpKind.loadInterleaved 4 16, MemOpKind.loadInterleaved 2 8,
   MemOpKind.loadInterleaved 3 8, MemOpKind.loadInterleaved 4 8,
   MemOpKind.loadInterleaved 2 4, MemOpKind.loadInterleaved 3 4,
   MemOpKind.loadInterleaved 4 4, MemOpKind.loadInterleaved 2 2,
   MemOpKind.loadInterleaved 3 2, MemOpKind.loadInterleaved 4 2,
   MemOpKind.storeInterleaved 2 16, MemOpKind.storeInterleaved 3 16,
   MemOpKind.storeInterleaved 4 16, MemOpKind.storeInterleaved 2 8,
   MemOpKind.storeInterleaved 3 8, MemOpKind.storeInterleaved 4 8,
   MemOpKind.storeInterleaved 2 4, MemOpKind.storeInterleaved 3 4,
   MemOpKind.storeInterleaved 4 4, MemOpKind.storeInterleaved 2 2,
   MemOpKind.storeInterleaved 3 2, MemOpKind.storeInterleaved 4 2,
   -- EMIT_ATOMIC_LOAD_OP:
   MemOpKind.atomicLoad 2, MemOpKind.atomicLoad 3, MemOpKind.atomicLoad 0,
   MemOpKind.atomicLoad 1,
   -- EMIT_ATOMIC_STORE_OP:
   MemOpKind.atomicStore 2, MemOpKind.atomicStore 3, MemOpKind.atomicStore 0,
   MemOpKind.atomicStore 1,
   -- EMIT_ATOMIC_CMPXCHG:
   MemOpKind.atomicCmpxchg 0, MemOpKind.atomicCmpxchg 1,
   MemOpKind.atomicCmpxchg 2, MemOpKind.atomicCmpxchg 3,
   -- EMIT_ATOMIC_RMW:
   MemOpKind.atomicRMW RMWOp.Xchg 0, MemOpKind.atomicRMW RMWOp.Xchg 1,
   MemOpKind.atomicRMW RMWOp.Xchg 2, MemOpKind.atomicRMW RMWOp.Xchg 3,
   MemOpKind.atomicRMW RMWOp.Add 0, MemOpKind.atomicRMW RMWOp.Add 1,
   MemOpKind.atomicRMW RMWOp.Add 2, MemOpKind.atomicRMW RMWOp.Add 3,
   MemOpKind.atomicRMW RMWOp.Sub 0, MemOpKind.atomicRMW RMWOp.Sub 1,
   MemOpKind.atomicRMW RMWOp.Sub 2, MemOpKind.atomicRMW RMWOp.Sub 3,
   MemOpKind.atomicRMW RMWOp.And 0, MemOpKind.atomicRMW RMWOp.And 1,
   MemOpKind.atomicRMW RMWOp.And 2, MemOpKind.atomicRMW RMWOp.And 3,
   MemOpKind.atomicRMW RMWOp.Or 0, MemOpKind.atomicRMW RMWOp.Or 1,
   MemOpKind.atomicRMW RMWOp.Or 2, MemOpKind.atomicRMW RMWOp.Or 3,
   MemOpKind.atomicRMW RMWOp.Xor 0, MemOpKind.atomicRMW RMWOp.Xor 1,
   MemOpKind.atomicRMW RMWOp.Xor 2, MemOpKind.atomicRMW RMWOp.Xor 3,
   -- atomic wait / notify:
   MemOpKind.atomicNotify, MemOpKind.atomicWaitI32, MemOpKind.atomicWaitI64]

/-! ### memory.copy and memory.fill -/

/-- `MemoryCopyImm`: source and destination memory indices. -/
structure MemoryCopyImm where
  sourceMemoryIndex : Nat
  destMemoryIndex : Nat
  deriving DecidableEq, Repr

/-- The index sequence produced by `emitLoop` with `beginIndex = 0` and
`endIndex = numBytes`: the forward loop visits the PHI values `0, 1, ...`
while `index < numBytes`; the reverse loop starts the PHI at `numBytes`,
runs while `index != 0`, and the body sees the decremented index, i.e.
`numBytes-1, ..., 0`. -/
def emitLoopIndices (numBytes : Nat) (reverse : Bool) : List Nat :=
  if reverse then (List.range numBytes).reverse else List.range numBytes

/-- The per-byte body of `emitMemoryCopyLoop`: an alignment-1 volatile load
from `sourcePointer + index` stored (alignment 1, volatile) to
`destPointer + index`. -/
def memoryCopyLoopBody (sourcePointer destPointer index : LLVMExpr) : List IREvent :=
  [IREvent.load (LLVMExpr.gep sourcePointer index) 1 true none,
   IREvent.store (LLVMExpr.gep destPointer index) 1 true none]

/-- `emitMemoryCopyLoop` unrolled for a concrete byte count. -/
def emitMemoryCopyLoop (sourcePointer destPointer : LLVMExpr) (numBytes : Nat)
    (reverse : Bool) : List IREvent :=
  (emitLoopIndices numBytes reverse).flatMap fun index =>
    memoryCopyLoopBody sourcePointer destPointer (LLVMExpr.lit64 index)

/-- How one arm of the `memory.copy` branch copies the bytes. -/
inductive CopyStrategy where
  | byteLoop (reverse : Bool) (sourcePointer destPointer : LLVMExpr)
  | repMovsb (destPointer sourcePointer : LLVMExpr)
  deriving DecidableEq, Repr

/-- The branching structure `EmitFunctionContext::memory_copy` emits:
bounded source/dest addresses, pointers into the (possibly distinct)
memories, a branch on `icmp ult` of the bounded addresses, a reverse
byte-loop arm and a forward arm (`rep movsb` on x86/x86-64, a forward
byte-loop otherwise). -/
structure MemoryCopyLowering where
  sourceBoundedAddress : LLVMExpr
  destBoundedAddress : LLVMExpr
  sourcePointer : LLVMExpr
  destPointer : LLVMExpr
  numBytes : LLVMExpr
  condition : LLVMExpr
  reverseCase : CopyStrategy
  forwardCase : CopyStrategy
  deriving DecidableEq, Repr

/-- `EmitFunctionContext::memory_copy` (pops numBytes, sourceAddress,
destAddress). -/
def memory_copy (imm : MemoryCopyImm) (arch : TargetArch) : MemoryCopyLowering :=
  let numBytes := LLVMExpr.operand 0
  let sourceAddress := LLVMExpr.operand 1
  let destAddress := LLVMExpr.operand 2
  let sourceBoundedAddress := getOffsetAndBoundedAddress sourceAddress 0
  let destBoundedAddress := getOffsetAndBoundedAddress destAddress 0
  let sourcePointer := coerceAddressToPointer sourceBoundedAddress imm.sourceMemoryIndex
  let destPointer := coerceAddressToPointer destBoundedAddress imm.destMemoryIndex
  { sourceBoundedAddress := sourceBoundedAddress
    destBoundedAddress := destBoundedAddress
    sourcePointer := sourcePointer
    destPointer := destPointer
    numBytes := LLVMExpr.zextIptr numBytes
    condition := LLVMExpr.icmpULT sourceBoundedAddress destBoundedAddress
    reverseCase := CopyStrategy.byteLoop true sourcePointer destPointer
    forwardCase :=
      if arch = TargetArch.x86 ∨ arch = TargetArch.x86_64 then
        CopyStrategy.repMovsb destPointer sourcePointer
      else
        CopyStrategy.byteLoop false sourcePointer destPointer }

/-- How `memory.fill` writes the bytes. -/
inductive FillStrategy where
  | repStosb (destPointer : LLVMExpr)
  | byteLoop (destPointer : LLVMExpr)
  deriving DecidableEq, Repr

/-- `EmitFunctionContext::memory_fill` (pops numBytes, value, destAddress):
`rep stosb` on x86/x86-64, otherwise a forward byte-loop of volatile
alignment-1 stores. -/
structure MemoryFillLowering where
  destBoundedAddress : LLVMExpr
  destPointer : LLVMExpr
  impl : FillStrategy
  deriving DecidableEq, Repr

def memory_fill (imm : LoadOrStoreImm) (arch : TargetArch) : MemoryFillLowering :=
  let destAddress := LLVMExpr.operand 2
  let destBoundedAddress := getOffsetAndBoundedAddress destAddress 0
  let destPointer := coerceAddressToPointer destBoundedAddress imm.memoryIndex
  { destBoundedAddress := destBoundedAddress
    destPointer := destPointer
    impl :=
      if arch = TargetArch.x86 ∨ arch = TargetArch.x86_64 then
        FillStrategy.repStosb destPointer
      else
        FillStrategy.byteLoop destPointer }

/-! ### Address-formation predicates (claim C1) -/

/-- A 64-bit address expression is a *bounded address* iff it is the zext of
a popped 32-bit operand, possibly with the zext of a 32-bit literal offset
added — exactly the two result shapes of `getOffsetAndBoundedAddress`.  In
particular a bounded address is never rooted in a sign extension or in a raw
(un-extended) 32-bit value. -/
def isBoundedAddress : LLVMExpr → Bool
  | LLVMExpr.zext64 (LLVMExpr.operand _) => true
  | LLVMExpr.add (LLVMExpr.zext64 (LLVMExpr.operand _))
      (LLVMExpr.zext64 (LLVMExpr.lit32 _)) => true
  | _ => false

/-- A pointer is well formed iff it is the in-bounds GEP of a memory base
pointer by a bounded address (cast to the element type), possibly further
offset by a constant vector index or a loop index. -/
def isBoundedPointer : LLVMExpr → Bool
  | LLVMExpr.ptrCast (LLVMExpr.gep (LLVMExpr.loadBasePtr _) boundedAddress) =>
      isBoundedAddress boundedAddress
  | LLVMExpr.gep pointer (LLVMExpr.lit32 _) => isBoundedPointer pointer
  | LLVMExpr.gep pointer (LLVMExpr.lit64 _) => isBoundedPointer pointer
  | LLVMExpr.gep pointer LLVMExpr.loopIndex => isBoundedPointer pointer
  | _ => false

/-- Every memory access of the event uses a bounded pointer, and every
misalignment guard tests a bounded address. -/
def eventAddressOk : IREvent → Bool
  | IREvent.load pointer _ _ _ => isBoundedPointer pointer
  | IREvent.store pointer _ _ _ => isBoundedPointer pointer
  | IREvent.atomicCmpXchg pointer _ _ _ _ => isBoundedPointer pointer
  | IREvent.atomicRMW _ pointer _ _ _ => isBoundedPointer pointer
  | IREvent.condTrapIntrinsic (LLVMExpr.icmpNE (LLVMExpr.lit64 0)
      (LLVMExpr.band address (LLVMExpr.lit64 _))) _ _ => isBoundedAddress address
  | IREvent.condTrapIntrinsic _ _ _ => false
  | IREvent.llvmIntrinsic _ args => args.all isBoundedPointer
  | IREvent.runtimeIntrinsic _ _ => true
  | IREvent.fence _ => true

/-! ## The test-script parser (Lib/WASTParse/ParseTests.cpp) -/

/-- The closed trap taxonomy of TestScript.h as used by `parseCommand`. -/
inductive ExpectedTrapType where
  | outOfBoundsMemoryAccess
  | outOfBoundsDataSegmentAccess
  | outOfBoundsElemSegmentAccess
  | outOfBounds
  | stackOverflow
  | integerDivideByZeroOrIntegerOverflow
  | invalidFloatOperation
  | misalignedAtomicMemoryAccess
  | reachedUnreachable
  | indirectCallSignatureMismatch
  | outOfBoundsTableAccess
  | uninitializedTableElement
  | invalidArgument
  deriving DecidableEq, Repr

/-- `stringStartsWith` (ParseTests.cpp): `!strncmp(string, p, numPrefixChars - 1)`,
i.e. the pattern is a leading substring of the string (written through the
character lists so that it evaluates by kernel reduction). -/
def stringStartsWith (string pattern : String) : Bool :=
  pattern.data.isPrefixOf string.data

/-- The ordered if/else-if chain classifying an expected-error string in the
`t_assert_exhaustion` / `t_assert_trap` arm of `parseCommand`.  The final
else records the parse error "unrecognized trap type" and throws
`RecoverParseException`, modelled as the `.error` result. -/
def parseExpectedTrapType (expectedErrorMessage : String) :
    Except String ExpectedTrapType :=
  if expectedErrorMessage == "out of bounds memory access" then
    Except.ok ExpectedTrapType.outOfBoundsMemoryAccess
  else if stringStartsWith expectedErrorMessage "out of bounds data segment access" then
    Except.ok ExpectedTrapType.outOfBoundsDataSegmentAccess
  else if stringStartsWith expectedErrorMessage "out of bounds elem segment access" then
    Except.ok ExpectedTrapType.outOfBoundsElemSegmentAccess
  else if stringStartsWith expectedErrorMessage "out of bounds" then
    Except.ok ExpectedTrapType.outOfBounds
  else if expectedErrorMessage == "call stack exhausted" then
    Except.ok ExpectedTrapType.stackOverflow
  else if expectedErrorMessage == "integer overflow" then
    Except.ok ExpectedTrapType.integerDivideByZeroOrIntegerOverflow
  else if expectedErrorMessage == "integer divide by zero" then
    Except.ok ExpectedTrapType.integerDivideByZeroOrIntegerOverflow
  else if expectedErrorMessage == "invalid conversion to integer" then
    Except.ok ExpectedTrapType.invalidFloatOperation
  else if expectedErrorMessage == "unaligned atomic" then
    Except.ok ExpectedTrapType.misalignedAtomicMemoryAccess
  else if stringStartsWith expectedErrorMessage "unreachable" then
    Except.ok ExpectedTrapType.reachedUnreachable
  else if stringStartsWith expectedErrorMessage "indirect call" then
    Except.ok ExpectedTrapType.indirectCallSignatureMismatch
  else if stringStartsWith expectedErrorMessage "undefined" then
    Except.ok ExpectedTrapType.outOfBoundsTableAccess
  else if stringStartsWith expectedErrorMessage "uninitialized" then
    Except.ok ExpectedTrapType.uninitializedTableElement
  else if stringStartsWith expectedErrorMessage "invalid argument" then
    Except.ok ExpectedTrapType.invalidArgument
  else if expectedErrorMessage == "element segment dropped" then
    Except.ok ExpectedTrapType.invalidArgument
  else if expectedErrorMessage == "data segment dropped" then
    Except.ok ExpectedTrapType.invalidArgument
  else
    Except.error "unrecognized trap type"

/-- Whether a rule of the spec's section 4.C table matches by string
equality or by leading-substring match. -/
inductive TrapMatchKind where
  | exactMatch
  | startsWithMatch
  deriving DecidableEq, Repr

structure TrapRule where
  kind : TrapMatchKind
  pattern : String
  mapped : ExpectedTrapType
  deriving DecidableEq, Repr

def trapRuleMatches (rule : TrapRule) (s : String) : Bool :=
  match rule.kind with
  | TrapMatchKind.exactMatch => s == rule.pattern
  | TrapMatchKind.startsWithMatch => stringStartsWith s rule.pattern

/-- The ordered rule table of spec section 4.C, written from the spec's
words (rows with several patterns are flattened in the row's order). -/
def specTrapRuleTable : List TrapRule :=
  [⟨TrapMatchKind.exactMatch, "out of bounds memory access",
    ExpectedTrapType.outOfBoundsMemoryAccess⟩,
   ⟨TrapMatchKind.startsWithMatch, "out of bounds data segment access",
    ExpectedTrapType.outOfBoundsDataSegmentAccess⟩,
   ⟨TrapMatchKind.startsWithMatch, "out of bounds elem segment access",
    ExpectedTrapType.outOfBoundsElemSegmentAccess⟩,
   ⟨TrapMatchKind.startsWithMatch, "out of bounds", ExpectedTrapType.outOfBounds⟩,
   ⟨TrapMatchKind.exactMatch, "call stack exhausted", ExpectedTrapType.stackOverflow⟩,
   ⟨TrapMatchKind.exactMatch, "integer overflow",
    ExpectedTrapType.integerDivideByZeroOrIntegerOverflow⟩,
   ⟨TrapMatchKind.exactMatch, "integer divide by zero",
    ExpectedTrapType.integerDivideByZeroOrIntegerOverflow⟩,
   ⟨TrapMatchKind.exactMatch, "invalid conversion to integer",
    ExpectedTrapType.invalidFloatOperation⟩,
   ⟨TrapMatchKind.exactMatch, "unaligned atomic",
    ExpectedTrapType.misalignedAtomicMemoryAccess⟩,
   ⟨TrapMatchKind.startsWithMatch, "unreachable", ExpectedTrapType.reachedUnreachable⟩,
   ⟨TrapMatchKind.startsWithMatch, "indirect call",
    ExpectedTrapType.indirectCallSignatureMismatch⟩,
   ⟨TrapMatchKind.startsWithMatch, "undefined", ExpectedTrapType.outOfBoundsTableAccess⟩,
   ⟨TrapMatchKind.startsWithMatch, "uninitialized",
    ExpectedTrapType.uninitializedTableElement⟩,
   ⟨TrapMatchKind.startsWithMatch, "invalid argument", ExpectedTrapType.invalidArgument⟩,
   ⟨TrapMatchKind.exactMatch, "element segment dropped", ExpectedTrapType.invalidArgument⟩,
   ⟨TrapMatchKind.exactMatch, "data segment dropped", ExpectedTrapType.invalidArgument⟩]

/-- First-match-wins application of an ordered rule list; no match is the
parse error "unrecognized trap type". -/
def applyTrapRules : List TrapRule → String → Except String ExpectedTrapType
  | [], _ => Except.error "unrecognized trap type"
  | rule :: rest, s =>
    if trapRuleMatches rule s then Except.ok rule.mapped else applyTrapRules rest s

/-- `UnresolvedError{charOffset, message}` recorded into a ParseState. -/
structure UnresolvedError where
  charOffset : Nat
  message : String
  deriving DecidableEq, Repr

/-- The deferred-error content of a `ParseState` (the source string and line
info are immutable and shared, so only the error list is modelled). -/
structure ParseState where
  unresolvedErrors : List UnresolvedError
  deriving DecidableEq, Repr

inductive InvalidOrMalformed where
  | wellFormedAndValid
  | invalid
  | malformed
  deriving DecidableEq, Repr

/-- The classification loop in the `t_assert_invalid` / `t_assert_malformed`
arm of `parseCommand`: start from `wellFormedAndValid`; a "validation error"
message sets `invalid` and continues; any other message sets `malformed` and
breaks. -/
def classifyInvalidOrMalformedLoop :
    List UnresolvedError → InvalidOrMalformed → InvalidOrMalformed
  | [], invalidOrMalformed => invalidOrMalformed
  | error :: rest, _ =>
    if stringStartsWith error.message "validation error" then
      classifyInvalidOrMalformedLoop rest InvalidOrMalformed.invalid
    else
      InvalidOrMalformed.malformed

def classifyInvalidOrMalformed (errors : List UnresolvedError) : InvalidOrMalformed :=
  classifyInvalidOrMalformedLoop errors InvalidOrMalformed.wellFormedAndValid

inductive QuotedModuleType where
  | none
  | text
  | binary
  deriving DecidableEq, Repr

/-- The two command kinds that reach the shared assert-invalid/malformed arm. -/
inductive CommandType where
  | assert_invalid
  | assert_malformed
  deriving DecidableEq, Repr

/-- Actions, as produced by `parseAction` (loci and argument values are not
needed by the claims and are abstracted to the identifying strings). -/
inductive Action where
  | get (internalModuleName exportName : String)
  | invoke (internalModuleName exportName : String) (arguments : List Nat)
  | moduleAction (internalModuleName : String)
  deriving DecidableEq, Repr

/-- The command representations built by `parseCommand` that the claims
mention.  Note there is no exhaustion-specific variant: the
`t_assert_exhaustion` and `t_assert_trap` tokens share one arm that builds
`AssertTrapCommand`. -/
inductive Command where
  | actionCommand (action : Action)
  | assertTrap (action : Action) (expectedType : ExpectedTrapType)
  | assertInvalidOrMalformed (commandType : CommandType)
      (invalidOrMalformed : InvalidOrMalformed)
      (quotedModuleType : QuotedModuleType) (quotedModuleString : String)
  deriving DecidableEq, Repr

/-- The two tokens that select the shared assert-trap arm of `parseCommand`. -/
inductive TrapCommandToken where
  | t_assert_trap
  | t_assert_exhaustion
  deriving DecidableEq, Repr

/-- The `case t_assert_exhaustion: case t_assert_trap:` arm of
`parseCommand`.  The parsed action and the `tryParseString` outcome (`none`
models a missing string literal) are inputs; after the token is consumed the
arm never inspects which of the two tokens it was. -/
def parseAssertTrapCommand (token : TrapCommandToken) (action : Action)
    (expectedErrorMessage : Option String) : Except String Command :=
  match token, expectedErrorMessage with
  | _, Option.none => Except.error "expected string literal"
  | _, Option.some msg =>
    match parseExpectedTrapType msg with
    | Except.error e => Except.error e
    | Except.ok expectedType => Except.ok (Command.assertTrap action expectedType)

/-- Exit state of the `t_assert_invalid` / `t_assert_malformed` arm:
which parse state the cursor points at on exit, the final contents of the
outer parse state, and either the emitted command or the rethrown
`RecoverParseException` (modelled as `Except.error`). -/
structure AssertInvalidOrMalformedResult where
  cursorStateIsOuter : Bool
  finalOuterState : ParseState
  result : Except Unit Command
  deriving Repr

/-- The `t_assert_invalid` / `t_assert_malformed` arm of `parseCommand`.
The scoped inner parse of `(module ...)` (delegated to the external
module-body parser via `parseTestScriptModule`) is an input:
`Except.error ()` models an unwinding `RecoverParseException`, and a
successful parse yields the unresolved errors it recorded in the scoped
`malformedModuleParseState` together with the quoted module kind and text.
`expectedErrorMessage` is the `tryParseString` outcome for the trailing
expected-error string. -/
def parseAssertInvalidOrMalformedCommand (commandType : CommandType)
    (outerParseState : ParseState)
    (innerParse : Except Unit (List UnresolvedError × QuotedModuleType × String))
    (errorTokenOffset : Nat) (expectedErrorMessage : Option String) :
    AssertInvalidOrMalformedResult :=
  -- cursor->parseState = &malformedModuleParseState; run the inner parse.
  match innerParse with
  | Except.error () =>
    -- catch(RecoverParseException): restore the outer parse state, rethrow.
    { cursorStateIsOuter := true
      finalOuterState := outerParseState
      result := Except.error () }
  | Except.ok (innerErrors, quotedModuleType, quotedModuleString) =>
    -- cursor->parseState = outerParseState (non-unwinding path).
    match expectedErrorMessage with
    | Option.none =>
      -- parseErrorf into the restored outer state, then throw.
      { cursorStateIsOuter := true
        finalOuterState :=
          { unresolvedErrors := outerParseState.unresolvedErrors ++
              [⟨errorTokenOffset, "expected string literal"⟩] }
        result := Except.error () }
    | Option.some _ =>
      { cursorStateIsOuter := true
        finalOuterState := outerParseState
        result := Except.ok (Command.assertInvalidOrMalformed commandType
          (classifyInvalidOrMalformed innerErrors) quotedModuleType
          quotedModuleString) }

/-! ## The runtime compartment model (Runtime, src/unnamed/part_000) -/

structure Table where
  id : Nat
  deriving DecidableEq, Repr

structure Memory where
  id : Nat
  deriving DecidableEq, Repr

structure Global where
  id : Nat
  mutableGlobalIndex : Nat
  deriving DecidableEq, Repr

structure ExceptionType where
  id : Nat
  deriving DecidableEq, Repr

structure Instance where
  id : Nat
  deriving DecidableEq, Repr

structure Context where
  id : Nat
  deriving DecidableEq, Repr

structure Foreign where
  id : Nat
  deriving DecidableEq, Repr

structure Function where
  instanceId : Nat
  deriving DecidableEq, Repr

/-- A compartment's per-kind index maps (each object carries its id), the
global-data allocation mask (a bitset, modelled as its bit image) and the
initial context mutable globals (a byte image, modelled as its value list). -/
structure Compartment where
  tables : List Table
  memories : List Memory
  globals : List Global
  exceptionTypes : List ExceptionType
  instances : List Instance
  contexts : List Context
  foreigns : List Foreign
  globalDataAllocationMask : Nat
  initialContextMutableGlobals : List Nat
  deriving DecidableEq, Repr

/-- Modelled from the spec: `cloneTable` is declared in RuntimePrivate.h
("Clones objects into a new compartment with the same ID.") but its body is
not under src/; the clone is a new table with the same id, registered in the
new compartment under that id. -/
def cloneTable (table : Table) : Table := { id := table.id }

/-- Modelled from the spec: `cloneMemory`, body not under src/; same id. -/
def cloneMemory (memory : Memory) : Memory := { id := memory.id }

/-- Modelled from the spec: `cloneGlobal`, body not under src/
(RuntimePrivate.h: "Clone a global with same ID and mutable data offset (if
mutable) in a new compartment."); same id and same `mutableGlobalIndex`. -/
def cloneGlobal (global : Global) : Global :=
  { id := global.id, mutableGlobalIndex := global.mutableGlobalIndex }

/-- Modelled from the spec: `cloneExceptionType`, body not under src/; same
id. -/
def cloneExceptionType (exceptionType : ExceptionType) : ExceptionType :=
  { id := exceptionType.id }

/-- Modelled from the spec: `cloneInstance`, body not under src/; same id. -/
def cloneInstance (inst : Instance) : Instance := { id := inst.id }

/-- `Runtime::cloneCompartment`: a fresh compartment (empty index maps),
then under the source's shared lock clone tables, memories, the global data
allocation mask and initial context mutable globals (bitwise/bytewise
copies), globals, exception types, and instances — each clone registered
under its original id.  Contexts and foreigns are never cloned. -/
def cloneCompartment (compartment : Compartment) : Compartment :=
  { tables := compartment.tables.map cloneTable
    memories := compartment.memories.map cloneMemory
    globals := compartment.globals.map cloneGlobal
    exceptionTypes := compartment.exceptionTypes.map cloneExceptionType
    instances := compartment.instances.map cloneInstance
    contexts := []
    foreigns := []
    globalDataAllocationMask := compartment.globalDataAllocationMask
    initialContextMutableGlobals := compartment.initialContextMutableGlobals }

/-- The `GCObject` kinds, as a tagged sum. -/
inductive Object where
  | table : Table → Object
  | memory : Memory → Object
  | global : Global → Object
  | exceptionType : ExceptionType → Object
  | inst : Instance → Object
  | function : Function → Object
  | context : Context → Object
  | foreign : Foreign → Object
  deriving DecidableEq, Repr

/-- `Runtime::remapToClonedCompartment(const Object*, const Compartment*)`:
a Function is passed through unchanged; a table/memory/global/exception
type/instance is looked up by its id in the new compartment's map of its
kind (`IndexMap::operator[]`, whose assertion of presence is modelled by
`Option`); contexts and foreigns reach `WAVM_UNREACHABLE` in this overload,
modelled as `none`. -/
def remapToClonedCompartment (object : Object) (newCompartment : Compartment) :
    Option Object :=
  match object with
  | Object.function f => some (Object.function f)
  | Object.table t =>
    (newCompartment.tables.find? fun x => x.id == t.id).map Object.table
  | Object.memory m =>
    (newCompartment.memories.find? fun x => x.id == m.id).map Object.memory
  | Object.global g =>
    (newCompartment.globals.find? fun x => x.id == g.id).map Object.global
  | Object.exceptionType e =>
    (newCompartment.exceptionTypes.find? fun x => x.id == e.id).map Object.exceptionType
  | Object.inst i =>
    (newCompartment.instances.find? fun x => x.id == i.id).map Object.inst
  | Object.context _ => none
  | Object.foreign _ => none

/-- An object is registered in a compartment when looking up its id in the
compartment's map for its kind yields the object itself (the §3 invariant
"`compartment.lookup(kind, id)` yields the same entity").  Functions are not
compartment-owned; contexts and foreigns are not remappable by the Object
overload, so the claims exclude all three. -/
def registeredIn (compartment : Compartment) : Object → Bool
  | Object.table t => (compartment.tables.find? fun x => x.id == t.id) == some t
  | Object.memory m => (compartment.memories.find? fun x => x.id == m.id) == some m
  | Object.global g => (compartment.globals.find? fun x => x.id == g.id) == some g
  | Object.exceptionType e =>
    (compartment.exceptionTypes.find? fun x => x.id == e.id) == some e
  | Object.inst i => (compartment.instances.find? fun x => x.id == i.id) == some i
  | Object.function _ => false
  | Object.context _ => false
  | Object.foreign _ => false

/-! ## Auxiliary predicates for the atomic claims -/

/-- Recognizes the conditional `misalignedAtomicTrap` intrinsic call emitted
by `trapIfMisalignedAtomic`. -/
def isMisalignedTrapEvent : IREvent → Bool
  | IREvent.condTrapIntrinsic _ name _ => name == "misalignedAtomicTrap"
  | _ => false

/-- Recognizes a memory access or runtime-intrinsic call (the instruction an
atomic op's misalignment check must precede). -/
def isMemAccessOrIntrinsicEvent : IREvent → Bool
  | IREvent.load _ _ _ _ => true
  | IREvent.store _ _ _ _ => true
  | IREvent.atomicCmpXchg _ _ _ _ _ => true
  | IREvent.atomicRMW _ _ _ _ _ => true
  | IREvent.runtimeIntrinsic _ _ => true
  | _ => false

/-- The natural alignment log2 of each atomic operator family: the
`naturalAlignmentLog2` macro argument for loads/stores/cmpxchg/RMW, and the
`AtomicLoadOrStoreImm<K>` template argument for notify (2), i32.wait (2) and
i64.wait (3).  `none` for non-atomic families. -/
def naturalAlignmentLog2OfAtomic : MemOpKind → Option Nat
  | MemOpKind.atomicLoad n => some n
  | MemOpKind.atomicStore n => some n
  | MemOpKind.atomicCmpxchg n => some n
  | MemOpKind.atomicRMW _ n => some n
  | MemOpKind.atomicNotify => some 2
  | MemOpKind.atomicWaitI32 => some 2
  | MemOpKind.atomicWaitI64 => some 3
  | _ => none

/-- The attribute combination claim C3 asserts of every atomic access
instruction: SequentiallyConsistent ordering (both orderings for cmpxchg),
`volatile = true`, and an explicit instruction alignment of
`1 << alignmentLog2` taken from the instruction's alignment immediate.
Non-access events are unconstrained. -/
def atomicEventHasTrustedAlignment (alignmentLog2 : Nat) : IREvent → Bool
  | IREvent.load _ a v ord =>
    ord == some AtomicOrdering.seqCst && v && a == (1 <<< alignmentLog2)
  | IREvent.store _ a v ord =>
    ord == some AtomicOrdering.seqCst && v && a == (1 <<< alignmentLog2)
  | IREvent.atomicCmpXchg _ so fo v ea =>
    so == AtomicOrdering.seqCst && fo == AtomicOrdering.seqCst && v &&
      ea == some (1 <<< alignmentLog2)
  | IREvent.atomicRMW _ _ o v ea =>
    o == AtomicOrdering.seqCst && v && ea == some (1 <<< alignmentLog2)
  | _ => true

/-- The attributes the code actually emits: atomic loads and stores get
SequentiallyConsistent / volatile / explicit alignment
`1 << imm.alignmentLog2`; atomic RMW and cmpxchg get SequentiallyConsistent
(both orderings for cmpxchg) and volatile but no explicit alignment; plain
(non-atomic) loads and stores always get alignment 1 and volatile. -/
def atomicEventEmittedAttributes (alignmentLog2 : Nat) : IREvent → Bool
  | IREvent.load _ a v ord =>
    v && (if ord.isSome then
            ord == some AtomicOrdering.seqCst && a == (1 <<< alignmentLog2)
          else a == 1)
  | IREvent.store _ a v ord =>
    v && (if ord.isSome then
            ord == some AtomicOrdering.seqCst && a == (1 <<< alignmentLog2)
          else a == 1)
  | IREvent.atomicCmpXchg _ so fo v ea =>
    so == AtomicOrdering.seqCst && fo == AtomicOrdering.seqCst && v && ea == none
  | IREvent.atomicRMW _ _ o v ea =>
    o == AtomicOrdering.seqCst && v && ea == none
  | _ => true

/-- A small concrete compartment used to instantiate the clone/remap
theorems: two tables, a memory, two globals with distinct mutable-global
indices, an exception type and an instance; no contexts, no foreigns. -/
def sampleCompartment : Compartment :=
  { tables := [⟨0⟩, ⟨1⟩]
    memories := [⟨0⟩]
    globals := [⟨0, 3⟩, ⟨1, 7⟩]
    exceptionTypes := [⟨0⟩]
    instances := [⟨0⟩]
    contexts := []
    foreigns := []
    globalDataAllocationMask := 136
    initialContextMutableGlobals := [0, 0, 0, 42] }

/-! ## Theorems -/

lemma isBoundedAddress_getOffsetAndBoundedAddress (a offset : Nat) :
    isBoundedAddress (getOffsetAndBoundedAddress (LLVMExpr.operand a) offset) = true := by
  unfold getOffsetAndBoundedAddress
  by_cases h : offset = 0 <;> simp [h, isBoundedAddress]

lemma isBoundedPointer_coerce (a offset memoryIndex : Nat) :
    isBoundedPointer
      (coerceAddressToPointer (getOffsetAndBoundedAddress (LLVMExpr.operand a) offset)
        memoryIndex) = true := by
  simp [coerceAddressToPointer, isBoundedPointer,
    isBoundedAddress_getOffsetAndBoundedAddress]

lemma all_eventAddressOk_trapIfMisalignedAtomic {boundedAddress : LLVMExpr} (n : Nat)
    (hb : isBoundedAddress boundedAddress = true) :
    (trapIfMisalignedAtomic boundedAddress n).all eventAddressOk = true := by
  unfold trapIfMisalignedAtomic
  split <;> simp [eventAddressOk, hb]

/-- C1: every memory operator lowering zero-extends the 32-bit address to 64
bits (adding the zero-extended static offset when it is non-zero) before the
result forms the byte pointer from the memory's base pointer; no lowering
path builds a pointer from a sign-extended or un-extended 32-bit address.
`eventAddressOk` accepts exactly the pointers rooted in `ptrCast (gep
(loadBasePtr _) b)` with `b` one of the two zext-rooted shapes
`getOffsetAndBoundedAddress` produces (and misalignment guards testing such
a `b`), so its truth over a whole trace is the claim.  `memory.copy` and
`memory.fill` are stated through their branching lowerings: their bounded
addresses are the zexts of the popped addresses and their pointers are the
base-pointer GEPs by those bounded addresses, and the byte-copy loops access
only constant offsets from those pointers. -/
theorem memOp_addresses_zero_extended :
    (∀ (op : MemOpKind) (imm : LoadOrStoreImm) (arch : TargetArch),
      (lowerMemOp op imm arch).all eventAddressOk = true) ∧
    (∀ (imm : MemoryCopyImm) (arch : TargetArch),
      (memory_copy imm arch).sourceBoundedAddress =
        LLVMExpr.zext64 (LLVMExpr.operand 1) ∧
      (memory_copy imm arch).destBoundedAddress =
        LLVMExpr.zext64 (LLVMExpr.operand 2) ∧
      (memory_copy imm arch).sourcePointer =
        coerceAddressToPointer (memory_copy imm arch).sourceBoundedAddress
          imm.sourceMemoryIndex ∧
      (memory_copy imm arch).destPointer =
        coerceAddressToPointer (memory_copy imm arch).destBoundedAddress
          imm.destMemoryIndex ∧
      (∀ (numBytes : Nat) (reverse : Bool),
        (emitMemoryCopyLoop (memory_copy imm arch).sourcePointer
          (memory_copy imm arch).destPointer numBytes reverse).all
            eventAddressOk = true)) ∧
    (∀ (imm : LoadOrStoreImm) (arch : TargetArch),
      (memory_fill imm arch).destBoundedAddress =
        LLVMExpr.zext64 (LLVMExpr.operand 2) ∧
      (memory_fill imm arch).destPointer =
        coerceAddressToPointer (memory_fill imm arch).destBoundedAddress
          imm.memoryIndex ∧
      isBoundedPointer (memory_fill imm arch).destPointer = true) := by
  refine ⟨?_, ?_, ?_⟩
  · intro op imm arch
    cases op <;>
      by_cases h : arch = TargetArch.aarch64 <;>
        simp [lowerMemOp, emitLoadOp, emitStoreOp, emitLoadInterleaved,
          emitStoreInterleaved, emitAtomicLoadOp, emitAtomicStoreOp,
          emitAtomicCmpxchgOp, emitAtomicRMWOp, atomic_notify, i32_atomic_wait,
          i64_atomic_wait, h, eventAddressOk, coerceAddressToPointer,
          isBoundedPointer, isBoundedAddress_getOffsetAndBoundedAddress,
          all_eventAddressOk_trapIfMisalignedAtomic, List.all_map]
  · intro imm arch
    refine ⟨rfl, rfl, rfl, rfl, ?_⟩
    intro numBytes reverse
    simp only [emitMemoryCopyLoop, List.all_flatMap, List.all_eq_true]
    intro index _
    simp [memoryCopyLoopBody, memory_copy, eventAddressOk, coerceAddressToPointer,
      isBoundedPointer, getOffsetAndBoundedAddress, isBoundedAddress]
  · intro imm arch
    refine ⟨rfl, rfl, ?_⟩
    simp [memory_fill, coerceAddressToPointer, isBoundedPointer,
      getOffsetAndBoundedAddress, isBoundedAddress]

/-- C2 counterexample: claim C2 keys the misalignment check to the
instruction's `alignmentLog2` immediate, predicting that no check is
emitted when that immediate is 0.  But for atomic loads, stores, RMW and
cmpxchg the code passes the `naturalAlignmentLog2` macro constant to
`trapIfMisalignedAtomic`, not `imm.alignmentLog2`: lowering `i32.atomic.load`
(natural alignment log2 = 2) with immediate `alignmentLog2 = 0` still emits a
`misalignedAtomicTrap` check (with mask `(1 << 2) - 1`). -/
theorem atomic_misalignment_check_uses_natural_alignment :
    ((lowerMemOp (MemOpKind.atomicLoad 2) ⟨0, 0, 0⟩ TargetArch.x86_64).any
      isMisalignedTrapEvent) = true ∧
    (⟨0, 0, 0⟩ : LoadOrStoreImm).alignmentLog2 = 0 := by
  constructor
  · rfl
  · rfl

/-- C2 (amended): for every atomic operation whose alignment immediate
equals its natural alignment — the only case module validation admits, and
the case in which the claim's `alignmentLog2` is unambiguous — the lowering
is exactly the `trapIfMisalignedAtomic` events (the conditional
`misalignedAtomicTrap` call guarded by
`(bounded_address & ((1 << alignmentLog2) - 1)) != 0` when
`alignmentLog2 > 0`, nothing when it is 0) followed by the memory access or
intrinsic call, with no misalignment check anywhere else.  In general the
guard value is the family's natural alignment for atomic
load/store/RMW/cmpxchg and the instruction immediate for wait/notify. -/
theorem atomic_misalignment_check_amended (op : MemOpKind) (imm : LoadOrStoreImm)
    (arch : TargetArch) (n : Nat)
    (hnat : naturalAlignmentLog2OfAtomic op = some n)
    (halign : imm.alignmentLog2 = n) :
    ∃ (i : Nat) (rest : List IREvent),
      lowerMemOp op imm arch =
        trapIfMisalignedAtomic
          (getOffsetAndBoundedAddress (LLVMExpr.operand i) imm.offset)
          imm.alignmentLog2 ++ rest ∧
      rest.all (fun ev => !isMisalignedTrapEvent ev) = true ∧
      rest.any isMemAccessOrIntrinsicEvent = true := by
  cases op <;>
    simp only [naturalAlignmentLog2OfAtomic, Option.some.injEq, reduceCtorEq] at hnat
  case atomicLoad k =>
    subst hnat
    refine ⟨0,
      [IREvent.load
        (coerceAddressToPointer
          (getOffsetAndBoundedAddress (LLVMExpr.operand 0) imm.offset) imm.memoryIndex)
        (1 <<< imm.alignmentLog2) true (some AtomicOrdering.seqCst)], ?_, ?_, ?_⟩
    · nth_rewrite 1 [halign]; rfl
    · rfl
    · rfl
  case atomicStore k =>
    subst hnat
    refine ⟨1,
      [IREvent.store
        (coerceAddressToPointer
          (getOffsetAndBoundedAddress (LLVMExpr.operand 1) imm.offset) imm.memoryIndex)
        (1 <<< imm.alignmentLog2) true (some AtomicOrdering.seqCst)], ?_, ?_, ?_⟩
    · nth_rewrite 1 [halign]; rfl
    · rfl
    · rfl
  case atomicCmpxchg k =>
    subst hnat
    refine ⟨2,
      [IREvent.atomicCmpXchg
        (coerceAddressToPointer
          (getOffsetAndBoundedAddress (LLVMExpr.operand 2) imm.offset) imm.memoryIndex)
        AtomicOrdering.seqCst AtomicOrdering.seqCst true none], ?_, ?_, ?_⟩
    · nth_rewrite 1 [halign]; rfl
    · rfl
    · rfl
  case atomicRMW rmwOp k =>
    subst hnat
    refine ⟨1,
      [IREvent.atomicRMW rmwOp
        (coerceAddressToPointer
          (getOffsetAndBoundedAddress (LLVMExpr.operand 1) imm.offset) imm.memoryIndex)
        AtomicOrdering.seqCst true none], ?_, ?_, ?_⟩
    · nth_rewrite 1 [halign]; rfl
    · rfl
    · rfl
  case atomicNotify =>
    refine ⟨1,
      [IREvent.runtimeIntrinsic "atomic_notify"
        [LLVMExpr.operand 1, LLVMExpr.operand 0,
         LLVMExpr.memoryIdOf imm.memoryIndex]], ?_, ?_, ?_⟩
    · rfl
    · rfl
    · rfl
  case atomicWaitI32 =>
    refine ⟨2,
      [IREvent.runtimeIntrinsic "atomic_wait_i32"
        [LLVMExpr.operand 2, LLVMExpr.operand 1, LLVMExpr.operand 0,
         LLVMExpr.memoryIdOf imm.memoryIndex]], ?_, ?_, ?_⟩
    · rfl
    · rfl
    · rfl
  case atomicWaitI64 =>
    refine ⟨2,
      [IREvent.runtimeIntrinsic "atomic_wait_i64"
        [LLVMExpr.operand 2, LLVMExpr.operand 1, LLVMExpr.operand 0,
         LLVMExpr.memoryIdOf imm.memoryIndex]], ?_, ?_, ?_⟩
    · rfl
    · rfl
    · rfl

/-- Witness for the amended C2 theorem at `i64.atomic.rmw.add` with its
natural alignment 3. -/
theorem atomic_misalignment_check_amended_witness :
    naturalAlignmentLog2OfAtomic (MemOpKind.atomicRMW RMWOp.Add 3) = some 3 ∧
    (⟨3, 8, 0⟩ : LoadOrStoreImm).alignmentLog2 = 3 ∧
    (∃ (i : Nat) (rest : List IREvent),
      lowerMemOp (MemOpKind.atomicRMW RMWOp.Add 3) ⟨3, 8, 0⟩ TargetArch.x86_64 =
        trapIfMisalignedAtomic
          (getOffsetAndBoundedAddress (LLVMExpr.operand i)
            (⟨3, 8, 0⟩ : LoadOrStoreImm).offset)
          (⟨3, 8, 0⟩ : LoadOrStoreImm).alignmentLog2 ++ rest ∧
      rest.all (fun ev => !isMisalignedTrapEvent ev) = true ∧
      rest.any isMemAccessOrIntrinsicEvent = true) :=
  ⟨rfl, rfl,
    atomic_misalignment_check_amended (MemOpKind.atomicRMW RMWOp.Add 3) ⟨3, 8, 0⟩
      TargetArch.x86_64 3 rfl rfl⟩

/-- C3 counterexample: claim C3 asserts every atomic RMW and cmpxchg is
emitted with instruction alignment `1 << alignmentLog2`, but the code calls
`setAlignment` only on atomic loads and stores; `CreateAtomicRMW` /
`CreateAtomicCmpXchg` get no explicit alignment.  At `i64.atomic.rmw.add`
with `alignmentLog2 = 3`, the emitted RMW instruction carries no explicit
alignment, so the claim's attribute predicate fails on the trace. -/
theorem atomic_rmw_lacks_explicit_alignment :
    ((lowerMemOp (MemOpKind.atomicRMW RMWOp.Add 3) ⟨3, 0, 0⟩ TargetArch.x86_64).all
      (atomicEventHasTrustedAlignment 3)) = false := by
  rfl

lemma all_attributes_trapIfMisalignedAtomic (boundedAddress : LLVMExpr) (n a : Nat) :
    (trapIfMisalignedAtomic boundedAddress n).all
      (atomicEventEmittedAttributes a) = true := by
  unfold trapIfMisalignedAtomic
  split <;> simp [atomicEventEmittedAttributes]

/-- C3 (amended): all atomic loads, stores, RMW and cmpxchg are emitted
SequentiallyConsistent (both orderings for cmpxchg) and volatile; atomic
loads and stores additionally get the explicit instruction alignment
`1 << imm.alignmentLog2` from the instruction's alignment immediate, while
atomic RMW and cmpxchg get no explicit alignment at all; non-atomic loads
and stores always get alignment 1. -/
theorem atomic_access_attributes (op : MemOpKind) (imm : LoadOrStoreImm)
    (arch : TargetArch) :
    (lowerMemOp op imm arch).all
      (atomicEventEmittedAttributes imm.alignmentLog2) = true := by
  cases op <;>
    by_cases h : arch = TargetArch.aarch64 <;>
      simp [lowerMemOp, emitLoadOp, emitStoreOp, emitLoadInterleaved,
        emitStoreInterleaved, emitAtomicLoadOp, emitAtomicStoreOp,
        emitAtomicCmpxchgOp, emitAtomicRMWOp, atomic_notify, i32_atomic_wait,
        i64_atomic_wait, h, atomicEventEmittedAttributes,
        all_attributes_trapIfMisalignedAtomic, List.all_map]

/-- C4: `memory.copy` compares the *bounded* source address with the
*bounded* destination address with an unsigned less-than; the true arm is
the reverse byte-wise loop, the false arm is `rep movsb` on x86/x86-64 and a
forward byte-wise loop elsewhere.  The byte loop at count `numBytes` visits
the indices `numBytes-1, ..., 0` (reverse) or `0, ..., numBytes-1`
(forward), copying each byte with an alignment-1 volatile load and store.
The bounded addresses are the zexts of the popped 32-bit addresses and do
not depend on the (possibly distinct) source and destination memory
indices. -/
theorem memory_copy_reverse_on_overlap (imm : MemoryCopyImm) (arch : TargetArch) :
    (memory_copy imm arch).condition =
      LLVMExpr.icmpULT (memory_copy imm arch).sourceBoundedAddress
        (memory_copy imm arch).destBoundedAddress ∧
    (memory_copy imm arch).sourceBoundedAddress =
      LLVMExpr.zext64 (LLVMExpr.operand 1) ∧
    (memory_copy imm arch).destBoundedAddress =
      LLVMExpr.zext64 (LLVMExpr.operand 2) ∧
    (memory_copy imm arch).reverseCase =
      CopyStrategy.byteLoop true (memory_copy imm arch).sourcePointer
        (memory_copy imm arch).destPointer ∧
    (memory_copy imm arch).forwardCase =
      (if arch = TargetArch.x86 ∨ arch = TargetArch.x86_64 then
        CopyStrategy.repMovsb (memory_copy imm arch).destPointer
          (memory_copy imm arch).sourcePointer
      else
        CopyStrategy.byteLoop false (memory_copy imm arch).sourcePointer
          (memory_copy imm arch).destPointer) ∧
    (∀ (numBytes : Nat) (reverse : Bool),
      emitMemoryCopyLoop (memory_copy imm arch).sourcePointer
          (memory_copy imm arch).destPointer numBytes reverse =
        (if reverse then (List.range numBytes).reverse
         else List.range numBytes).flatMap fun index =>
          [IREvent.load
            (LLVMExpr.gep (memory_copy imm arch).sourcePointer (LLVMExpr.lit64 index))
            1 true none,
           IREvent.store
            (LLVMExpr.gep (memory_copy imm arch).destPointer (LLVMExpr.lit64 index))
            1 true none]) := by
  refine ⟨rfl, rfl, rfl, rfl, rfl, ?_⟩
  intro numBytes reverse
  rfl

set_option maxRecDepth 4000 in
/-- C5: the trap classifier in the `t_assert_trap` / `t_assert_exhaustion`
arm is exactly the ordered, first-match-wins rule table of spec section 4.C
(first conjunct, a full refinement), and behaves as the table's rows
dictate on the rows' own strings: the "out of bounds memory access" rule is
an exact match (a proper extension of it falls through to the "out of
bounds" rule), the data/elem-segment rules win over the plain "out of
bounds" rule, and a string matching no rule is the parse error
"unrecognized trap type". -/
theorem trap_string_classifier_follows_table :
    (∀ s, parseExpectedTrapType s = applyTrapRules specTrapRuleTable s) ∧
    parseExpectedTrapType "out of bounds memory access" =
      Except.ok ExpectedTrapType.outOfBoundsMemoryAccess ∧
    parseExpectedTrapType "out of bounds memory access, oh my" =
      Except.ok ExpectedTrapType.outOfBounds ∧
    parseExpectedTrapType "out of bounds data segment access at 16" =
      Except.ok ExpectedTrapType.outOfBoundsDataSegmentAccess ∧
    parseExpectedTrapType "out of bounds elem segment access at 4" =
      Except.ok ExpectedTrapType.outOfBoundsElemSegmentAccess ∧
    parseExpectedTrapType "out of bounds table access" =
      Except.ok ExpectedTrapType.outOfBounds ∧
    parseExpectedTrapType "call stack exhausted" =
      Except.ok ExpectedTrapType.stackOverflow ∧
    parseExpectedTrapType "integer overflow" =
      Except.ok ExpectedTrapType.integerDivideByZeroOrIntegerOverflow ∧
    parseExpectedTrapType "integer divide by zero" =
      Except.ok ExpectedTrapType.integerDivideByZeroOrIntegerOverflow ∧
    parseExpectedTrapType "invalid conversion to integer" =
      Except.ok ExpectedTrapType.invalidFloatOperation ∧
    parseExpectedTrapType "unaligned atomic" =
      Except.ok ExpectedTrapType.misalignedAtomicMemoryAccess ∧
    parseExpectedTrapType "unreachable executed" =
      Except.ok ExpectedTrapType.reachedUnreachable ∧
    parseExpectedTrapType "indirect call signature mismatch" =
      Except.ok ExpectedTrapType.indirectCallSignatureMismatch ∧
    parseExpectedTrapType "undefined element" =
      Except.ok ExpectedTrapType.outOfBoundsTableAccess ∧
    parseExpectedTrapType "uninitialized element 7" =
      Except.ok ExpectedTrapType.uninitializedTableElement ∧
    parseExpectedTrapType "invalid argument: no" =
      Except.ok ExpectedTrapType.invalidArgument ∧
    parseExpectedTrapType "element segment dropped" =
      Except.ok ExpectedTrapType.invalidArgument ∧
    parseExpectedTrapType "data segment dropped" =
      Except.ok ExpectedTrapType.invalidArgument ∧
    parseExpectedTrapType "nonsense" = Except.error "unrecognized trap type" :=
  ⟨fun _ => rfl, rfl, rfl, rfl, rfl, rfl, rfl, rfl, rfl, rfl, rfl, rfl, rfl, rfl,
   rfl, rfl, rfl, rfl, rfl⟩

lemma classifyInvalidOrMalformedLoop_invalid (errors : List UnresolvedError) :
    classifyInvalidOrMalformedLoop errors InvalidOrMalformed.invalid =
      (if errors.any (fun e => !stringStartsWith e.message "validation error") then
        InvalidOrMalformed.malformed
      else InvalidOrMalformed.invalid) := by
  induction errors with
  | nil => rfl
  | cons e rest ih =>
    by_cases h : stringStartsWith e.message "validation error" <;>
      simp [classifyInvalidOrMalformedLoop, h, ih]

/-- C6: the assert_invalid / assert_malformed classification of a scoped
error list E is `malformed` when some error's message does not start with
"validation error", else `invalid` when E is non-empty, else
`wellFormedAndValid`. -/
theorem assert_invalid_malformed_classification (errors : List UnresolvedError) :
    classifyInvalidOrMalformed errors =
      (if errors.any (fun e => !stringStartsWith e.message "validation error") then
        InvalidOrMalformed.malformed
      else if errors.isEmpty then InvalidOrMalformed.wellFormedAndValid
      else InvalidOrMalformed.invalid) := by
  cases errors with
  | nil => rfl
  | cons e rest =>
    by_cases h : stringStartsWith e.message "validation error" <;>
      simp [classifyInvalidOrMalformed, classifyInvalidOrMalformedLoop, h,
        classifyInvalidOrMalformedLoop_invalid]

/-- C7: the scoped inner parse of the assert_invalid / assert_malformed arm
never leaks errors into the caller's parse state, the outer parse state is
restored (the cursor points at it again) on every exit path — including the
unwinding `RecoverParseException` path — and on the non-unwinding path a
command carrying the expected command kind and the quoted module text is
emitted for every error list E, i.e. for every classification.  The only
error ever appended to the outer state is the caller-level "expected string
literal" error when the trailing string is missing. -/
theorem assert_invalid_malformed_scoped_state :
    (∀ (commandType : CommandType) (outer : ParseState) (off : Nat)
       (E : List UnresolvedError) (qt : QuotedModuleType) (qs : String) (msg : String),
      parseAssertInvalidOrMalformedCommand commandType outer
          (Except.ok (E, qt, qs)) off (some msg) =
        ⟨true, outer,
          Except.ok (Command.assertInvalidOrMalformed commandType
            (classifyInvalidOrMalformed E) qt qs)⟩) ∧
    (∀ (commandType : CommandType) (outer : ParseState) (off : Nat)
       (expectedErrorMessage : Option String),
      parseAssertInvalidOrMalformedCommand commandType outer (Except.error ()) off
          expectedErrorMessage =
        ⟨true, outer, Except.error ()⟩) ∧
    (∀ (commandType : CommandType) (outer : ParseState) (off : Nat)
       (E : List UnresolvedError) (qt : QuotedModuleType) (qs : String),
      parseAssertInvalidOrMalformedCommand commandType outer
          (Except.ok (E, qt, qs)) off none =
        ⟨true, ⟨outer.unresolvedErrors ++ [⟨off, "expected string literal"⟩]⟩,
          Except.error ()⟩) :=
  ⟨fun _ _ _ _ _ _ _ => rfl, fun _ _ _ _ => rfl, fun _ _ _ _ _ _ => rfl⟩

set_option maxRecDepth 8000 in
/-- C10: `(assert_exhaustion action "message")` parses to exactly the same
command representation as `assert_trap` — the shared arm never inspects
which of the two tokens selected it — and "call stack exhausted" yields an
`AssertTrapCommand` with expected type `stackOverflow`. -/
theorem assert_exhaustion_is_assert_trap :
    (∀ (action : Action) (expectedErrorMessage : Option String),
      parseAssertTrapCommand TrapCommandToken.t_assert_exhaustion action
          expectedErrorMessage =
        parseAssertTrapCommand TrapCommandToken.t_assert_trap action
          expectedErrorMessage) ∧
    (∀ action : Action,
      parseAssertTrapCommand TrapCommandToken.t_assert_exhaustion action
          (some "call stack exhausted") =
        Except.ok (Command.assertTrap action ExpectedTrapType.stackOverflow)) := by
  constructor
  · intro action expectedErrorMessage
    cases expectedErrorMessage <;> rfl
  · intro action
    rfl

lemma cloneTable_eq_self (t : Table) : cloneTable t = t := rfl

lemma cloneMemory_eq_self (m : Memory) : cloneMemory m = m := rfl

lemma cloneGlobal_eq_self (g : Global) : cloneGlobal g = g := rfl

lemma cloneExceptionType_eq_self (e : ExceptionType) : cloneExceptionType e = e := rfl

lemma cloneInstance_eq_self (i : Instance) : cloneInstance i = i := rfl

lemma map_cloneTable (l : List Table) : l.map cloneTable = l := by
  induction l with
  | nil => rfl
  | cons a l ih => simp [cloneTable_eq_self, ih]

lemma map_cloneMemory (l : List Memory) : l.map cloneMemory = l := by
  induction l with
  | nil => rfl
  | cons a l ih => simp [cloneMemory_eq_self, ih]

lemma map_cloneGlobal (l : List Global) : l.map cloneGlobal = l := by
  induction l with
  | nil => rfl
  | cons a l ih => simp [cloneGlobal_eq_self, ih]

lemma map_cloneExceptionType (l : List ExceptionType) :
    l.map cloneExceptionType = l := by
  induction l with
  | nil => rfl
  | cons a l ih => simp [cloneExceptionType_eq_self, ih]

lemma map_cloneInstance (l : List Instance) : l.map cloneInstance = l := by
  induction l with
  | nil => rfl
  | cons a l ih => simp [cloneInstance_eq_self, ih]

/-- C8: for a compartment with no contexts and no foreigns, the clone
registers a clone of every table, memory, global, exception type and
instance under the same id as the original, preserves every global's
`mutableGlobalIndex`, copies `globalDataAllocationMask` and
`initialContextMutableGlobals` as bitwise/bytewise images, and contains no
contexts and no foreigns. -/
theorem cloneCompartment_preserves_ids_and_globals (c : Compartment)
    (hcontexts : c.contexts = []) (hforeigns : c.foreigns = []) :
    (cloneCompartment c).tables.map Table.id = c.tables.map Table.id ∧
    (cloneCompartment c).memories.map Memory.id = c.memories.map Memory.id ∧
    (cloneCompartment c).globals.map Global.id = c.globals.map Global.id ∧
    (cloneCompartment c).globals.map Global.mutableGlobalIndex =
      c.globals.map Global.mutableGlobalIndex ∧
    (cloneCompartment c).exceptionTypes.map ExceptionType.id =
      c.exceptionTypes.map ExceptionType.id ∧
    (cloneCompartment c).instances.map Instance.id = c.instances.map Instance.id ∧
    (cloneCompartment c).globalDataAllocationMask = c.globalDataAllocationMask ∧
    (cloneCompartment c).initialContextMutableGlobals =
      c.initialContextMutableGlobals ∧
    (cloneCompartment c).contexts = [] ∧
    (cloneCompartment c).foreigns = [] := by
  refine ⟨?_, ?_, ?_, ?_, ?_, ?_, rfl, rfl, rfl, rfl⟩ <;>
    simp [cloneCompartment, map_cloneTable, map_cloneMemory, map_cloneGlobal,
      map_cloneExceptionType, map_cloneInstance]

/-- Witness for C8 at the sample compartment. -/
theorem cloneCompartment_preserves_ids_and_globals_witness :
    sampleCompartment.contexts = [] ∧ sampleCompartment.foreigns = [] ∧
    ((cloneCompartment sampleCompartment).tables.map Table.id =
        sampleCompartment.tables.map Table.id ∧
      (cloneCompartment sampleCompartment).memories.map Memory.id =
        sampleCompartment.memories.map Memory.id ∧
      (cloneCompartment sampleCompartment).globals.map Global.id =
        sampleCompartment.globals.map Global.id ∧
      (cloneCompartment sampleCompartment).globals.map Global.mutableGlobalIndex =
        sampleCompartment.globals.map Global.mutableGlobalIndex ∧
      (cloneCompartment sampleCompartment).exceptionTypes.map ExceptionType.id =
        sampleCompartment.exceptionTypes.map ExceptionType.id ∧
      (cloneCompartment sampleCompartment).instances.map Instance.id =
        sampleCompartment.instances.map Instance.id ∧
      (cloneCompartment sampleCompartment).globalDataAllocationMask =
        sampleCompartment.globalDataAllocationMask ∧
      (cloneCompartment sampleCompartment).initialContextMutableGlobals =
        sampleCompartment.initialContextMutableGlobals ∧
      (cloneCompartment sampleCompartment).contexts = [] ∧
      (cloneCompartment sampleCompartment).foreigns = []) :=
  ⟨rfl, rfl, cloneCompartment_preserves_ids_and_globals sampleCompartment rfl rfl⟩

/-- C9: remapping a table, memory, global, exception type or instance that
is registered in C into the clone C' and remapping the result back into C is
the identity, and a Function is returned unchanged by remapping in either
direction. -/
theorem remap_round_trip :
    (∀ (c : Compartment) (x : Object), registeredIn c x = true →
      (remapToClonedCompartment x (cloneCompartment c)).bind
        (fun y => remapToClonedCompartment y c) = some x) ∧
    (∀ (f : Function) (newCompartment : Compartment),
      remapToClonedCompartment (Object.function f) newCompartment =
        some (Object.function f)) := by
  constructor
  · intro c x hreg
    cases x with
    | table t =>
      have h : (c.tables.find? fun y => y.id == t.id) = some t := by
        simpa [registeredIn] using hreg
      have hmaps : (cloneCompartment c).tables = c.tables := by
        simp [cloneCompartment, map_cloneTable]
      simp [remapToClonedCompartment, hmaps, h]
    | memory m =>
      have h : (c.memories.find? fun y => y.id == m.id) = some m := by
        simpa [registeredIn] using hreg
      have hmaps : (cloneCompartment c).memories = c.memories := by
        simp [cloneCompartment, map_cloneMemory]
      simp [remapToClonedCompartment, hmaps, h]
    | global g =>
      have h : (c.globals.find? fun y => y.id == g.id) = some g := by
        simpa [registeredIn] using hreg
      have hmaps : (cloneCompartment c).globals = c.globals := by
        simp [cloneCompartment, map_cloneGlobal]
      simp [remapToClonedCompartment, hmaps, h]
    | exceptionType e =>
      have h : (c.exceptionTypes.find? fun y => y.id == e.id) = some e := by
        simpa [registeredIn] using hreg
      have hmaps : (cloneCompartment c).exceptionTypes = c.exceptionTypes := by
        simp [cloneCompartment, map_cloneExceptionType]
      simp [remapToClonedCompartment, hmaps, h]
    | inst i =>
      have h : (c.instances.find? fun y => y.id == i.id) = some i := by
        simpa [registeredIn] using hreg
      have hmaps : (cloneCompartment c).instances = c.instances := by
        simp [cloneCompartment, map_cloneInstance]
      simp [remapToClonedCompartment, hmaps, h]
    | function f => simp [registeredIn] at hreg
    | context ctx => simp [registeredIn] at hreg
    | foreign f => simp [registeredIn] at hreg
  · intro f newCompartment
    rfl

/-- Witness for C9: the round trip at a table and at a global of the sample
compartment. -/
theorem remap_round_trip_witness :
    registeredIn sampleCompartment (Object.global ⟨1, 7⟩) = true ∧
    (remapToClonedCompartment (Object.global ⟨1, 7⟩)
        (cloneCompartment sampleCompartment)).bind
      (fun y => remapToClonedCompartment y sampleCompartment) =
        some (Object.global ⟨1, 7⟩) :=
  ⟨by decide,
    remap_round_trip.1 sampleCompartment (Object.global ⟨1, 7⟩) (by decide)⟩

end WAVMProof
